import Mathlib

/-!
Verification development for the Madison tax parcel explorer's map selection
and group-comparison widget (src/components/maplibre_parcel_map.py, embedded
JavaScript) and the color mapper (src/pages/parcel_map.py).

JavaScript / Python numbers are modelled as rationals; a possibly-NaN float
is modelled as an Option value (none = NaN).  JavaScript string-falsiness
(used via the || operator on strings) is modelled by treating the empty
string as the falsy value.
-/

namespace ParcelWidget

/-- JavaScript `a || b` on strings: the empty string stands for a falsy
value (undefined or empty). -/
def jsOrS (a b : String) : String := if a = "" then b else a

/-- JavaScript `a || b` on numbers, where `a` is a genuine number: 0 is the
only falsy numeric value in the rational model. -/
def jsOrQ (a b : ℚ) : ℚ := if a = 0 then b else a

/-- Properties carried by a GeoJSON feature of the parcels source, as read
by the click handlers (`props` in the JavaScript).  `display_label` stands
for `props[displayField]`, the pre-resolved display-name property. -/
structure GeoProps where
  feature_id : String
  overlay_type : String
  display_label : String
  total_value : ℚ
  land_value : ℚ
  lot_size : ℚ
  net_taxes : ℚ
  net_taxes_per_sqft : ℚ
  taxes_per_city_street_sqft : ℚ
  land_value_per_sqft : ℚ
  alignment_index : ℚ
  deriving DecidableEq, Repr

/-- A feature of `data.geojson.features`: the numeric source id used for
`map.setFeatureState`, plus its property bag. -/
structure GeoFeature where
  id : Nat
  props : GeoProps
  deriving DecidableEq, Repr

/-- The metric bag of a selection entry, as assembled by
`buildFeatureObject`. -/
structure FeatureProperties where
  total_value : ℚ
  land_value : ℚ
  lot_size : ℚ
  net_taxes : ℚ
  net_taxes_per_sqft : ℚ
  taxes_per_city_street_sqft : ℚ
  land_value_per_sqft : ℚ
  alignment_index : ℚ
  deriving DecidableEq, Repr

/-- A selection entry (`buildFeatureObject` result): business key, label,
overlay type and metric properties. -/
structure FeatureObj where
  id : String
  label : String
  overlay_type : String
  properties : FeatureProperties
  deriving DecidableEq, Repr

/-- `buildFeatureObject(props, labelValue)` from the source. -/
def buildFeatureObject (props : GeoProps) (labelValue : String) : FeatureObj :=
  { id := props.feature_id
    label := labelValue
    overlay_type := props.overlay_type
    properties :=
      { total_value := props.total_value
        land_value := props.land_value
        lot_size := props.lot_size
        net_taxes := props.net_taxes
        net_taxes_per_sqft := props.net_taxes_per_sqft
        taxes_per_city_street_sqft := jsOrQ props.taxes_per_city_street_sqft 0
        land_value_per_sqft := props.land_value_per_sqft
        alignment_index := props.alignment_index } }

/-- The aggregate record produced by `calculateGroupAggregate`. -/
structure Aggregate where
  count : Nat
  total_value : ℚ
  land_value : ℚ
  lot_size : ℚ
  net_taxes : ℚ
  net_taxes_per_sqft : ℚ
  land_value_per_sqft : ℚ
  alignment_index : ℚ
  deriving DecidableEq, Repr

/-- `calculateGroupAggregate(features)` from the source: null on an empty
list; otherwise sums of the four raw metrics (each read with `|| 0`),
per-sqft metrics recomputed from the sums guarded by `lot_size > 0`, and
`alignment_index` the arithmetic mean of the per-feature values. -/
def calculateGroupAggregate (features : List FeatureObj) : Option Aggregate :=
  if features.length = 0 then none
  else
    let total_value := features.foldl (fun acc f => acc + jsOrQ f.properties.total_value 0) 0
    let land_value := features.foldl (fun acc f => acc + jsOrQ f.properties.land_value 0) 0
    let lot_size := features.foldl (fun acc f => acc + jsOrQ f.properties.lot_size 0) 0
    let net_taxes := features.foldl (fun acc f => acc + jsOrQ f.properties.net_taxes 0) 0
    let net_taxes_per_sqft := if lot_size > 0 then net_taxes / lot_size else 0
    let land_value_per_sqft := if lot_size > 0 then land_value / lot_size else 0
    let alignmentSum := features.foldl (fun acc f => acc + jsOrQ f.properties.alignment_index 0) 0
    some
      { count := features.length
        total_value := total_value
        land_value := land_value
        lot_size := lot_size
        net_taxes := net_taxes
        net_taxes_per_sqft := net_taxes_per_sqft
        land_value_per_sqft := land_value_per_sqft
        alignment_index := alignmentSum / features.length }

/-- Visual feature-state kept by the map surface for one feature
(`map.setFeatureState` target): the `selected` flag and the
`groupMembership` tag (null, "group1" or "group2"). -/
structure FeatureVisual where
  selected : Bool
  groupMembership : Option String
  deriving DecidableEq, Repr

/-- The visual state a feature has before any `setFeatureState` call. -/
def defaultVisual : FeatureVisual := { selected := false, groupMembership := none }

/-- The map surface's per-feature visual state, keyed by the source's
numeric feature id. -/
abbrev VisualMap := List (Nat × FeatureVisual)

/-- Look up a feature's visual state (absent keys carry the default). -/
def getVisual (vs : VisualMap) (i : Nat) : FeatureVisual :=
  match vs with
  | [] => defaultVisual
  | (j, w) :: rest => if j = i then w else getVisual rest i

/-- Store a feature's full visual state (update in place or append). -/
def setVisual (vs : VisualMap) (i : Nat) (v : FeatureVisual) : VisualMap :=
  match vs with
  | [] => [(i, v)]
  | (j, w) :: rest => if j = i then (i, v) :: rest else (j, w) :: setVisual rest i v

/-- `map.setFeatureState(id, { selected })`: MapLibre merges the given
keys into the existing feature state, so `groupMembership` is kept. -/
def setFeatureStateSelected (vs : VisualMap) (i : Nat) (b : Bool) : VisualMap :=
  setVisual vs i { getVisual vs i with selected := b }

/-- `map.setFeatureState(id, { selected, groupMembership })`: both keys
written. -/
def setFeatureStateFull (vs : VisualMap) (i : Nat) (b : Bool) (g : Option String) : VisualMap :=
  setVisual vs i { selected := b, groupMembership := g }

/-- `featureGroupMap`, a JavaScript Map from feature business key to
"group1" or "group2", as an association list. -/
abbrev FeatureGroupMap := List (String × String)

/-- JavaScript `Map.set`: overwrite the key in place, or append it. -/
def fgmSet (m : FeatureGroupMap) (k v : String) : FeatureGroupMap :=
  match m with
  | [] => [(k, v)]
  | (j, w) :: rest => if j = k then (k, v) :: rest else (j, w) :: fgmSet rest k v

/-- JavaScript `Map.delete`: remove the key. -/
def fgmDelete (m : FeatureGroupMap) (k : String) : FeatureGroupMap :=
  m.filter (fun p => p.1 ≠ k)

/-- `selectionMode`: Individual or Group selection. -/
inductive SelectionMode
  | individual
  | group
  deriving DecidableEq, Repr

/-- `groupModeState`, the group comparison state machine's state. -/
inductive GroupModeState
  | IDLE
  | SELECTING_G1
  | SELECTING_G2
  | COMPLETE
  deriving DecidableEq, Repr

/-- A confirmed group snapshot: `confirmedGroup1 = { features: [...] }`
holds only the copied feature array. -/
structure ConfirmedGroup where
  features : List FeatureObj
  deriving DecidableEq, Repr

/-- The mutable widget-scoped variables of the component closure. -/
structure WidgetState where
  selectionMode : SelectionMode
  groupModeState : GroupModeState
  selectedFeatures : List FeatureObj
  group1Features : List FeatureObj
  group2Features : List FeatureObj
  confirmedGroup1 : Option ConfirmedGroup
  confirmedGroup2 : Option ConfirmedGroup
  featureGroupMap : FeatureGroupMap
  visual : VisualMap
  deriving DecidableEq, Repr

/-- Initial values of the widget-scoped variables. -/
def initialState : WidgetState :=
  { selectionMode := .individual
    groupModeState := .IDLE
    selectedFeatures := []
    group1Features := []
    group2Features := []
    confirmedGroup1 := none
    confirmedGroup2 := none
    featureGroupMap := []
    visual := [] }

/-- One side of the group-comparison payload built by
`syncGroupsToPython`. -/
structure GroupSide where
  features : List FeatureObj
  aggregate : Option Aggregate
  deriving DecidableEq, Repr

/-- An observable push to host state (`setStateValue` call). -/
inductive SyncEvent
  | individualSel (features : List FeatureObj)
  | groupComparison (group1 : Option GroupSide) (group2 : Option GroupSide)
  deriving DecidableEq, Repr

/-- `syncToPython()`: pushes the individual selection, only while
`selectionMode` is individual. -/
def syncToPython (s : WidgetState) : List SyncEvent :=
  if s.selectionMode = .individual then [.individualSel s.selectedFeatures] else []

/-- `syncGroupsToPython()`: pushes the group-comparison payload, each side
built from the confirmed snapshot with its aggregate computed over the
snapshot's features. -/
def syncGroupsToPython (s : WidgetState) : List SyncEvent :=
  [.groupComparison
    (s.confirmedGroup1.map fun g =>
      { features := g.features, aggregate := calculateGroupAggregate g.features })
    (s.confirmedGroup2.map fun g =>
      { features := g.features, aggregate := calculateGroupAggregate g.features })]

/-- The per-feature body of the visual clearing loops in `resetGroupMode`
and `clearAllSelections`: find the geojson feature with this business key
and, if present, set its feature-state to unselected with no group. -/
def clearFeatureVisual (data : List GeoFeature) (vs : VisualMap) (fid : String) : VisualMap :=
  match data.find? (fun gf => gf.props.feature_id == fid) with
  | some feature => setFeatureStateFull vs feature.id false none
  | none => vs

/-- `resetGroupMode()`: clear visual state of all group features, empty
both working groups, drop both confirmed snapshots, clear the membership
map, set the state to IDLE, and (inlining the nested
`transitionGroupState(START_SELECTING)` call, which from IDLE just moves
to SELECTING_G1) re-enter SELECTING_G1 when the mode is still group. -/
def resetGroupMode (data : List GeoFeature) (s : WidgetState) : WidgetState :=
  let vs := (s.group1Features ++ s.group2Features).foldl
    (fun vs f => clearFeatureVisual data vs f.id) s.visual
  let s1 : WidgetState :=
    { s with
      visual := vs
      group1Features := []
      group2Features := []
      confirmedGroup1 := none
      confirmedGroup2 := none
      featureGroupMap := []
      groupModeState := .IDLE }
  if s1.selectionMode = .group then { s1 with groupModeState := .SELECTING_G1 } else s1

/-- The actions fed to `transitionGroupState`. -/
inductive GroupAction
  | START_SELECTING
  | CONFIRM
  | RESET
  | COMPARE
  deriving DecidableEq, Repr

/-- `transitionGroupState(action)`: the group comparison state machine.
The sync events produced (by `syncGroupsToPython` on COMPARE) are
returned alongside the new state. -/
def transitionGroupState (data : List GeoFeature) (action : GroupAction) (s : WidgetState) :
    WidgetState × List SyncEvent :=
  match s.groupModeState with
  | .IDLE =>
    if action = .START_SELECTING then ({ s with groupModeState := .SELECTING_G1 }, [])
    else (s, [])
  | .SELECTING_G1 =>
    if action = .CONFIRM ∧ s.group1Features.length > 0 then
      ({ s with
          confirmedGroup1 := some { features := s.group1Features }
          groupModeState := .SELECTING_G2 }, [])
    else if action = .RESET then (resetGroupMode data s, [])
    else (s, [])
  | .SELECTING_G2 =>
    if action = .CONFIRM ∧ s.group2Features.length > 0 then
      ({ s with
          confirmedGroup2 := some { features := s.group2Features }
          groupModeState := .COMPLETE }, [])
    else if action = .RESET then (resetGroupMode data s, [])
    else (s, [])
  | .COMPLETE =>
    if action = .COMPARE then (s, syncGroupsToPython s)
    else if action = .RESET then (resetGroupMode data s, [])
    else (s, [])

/-- `clearAllSelections()`: unmark and drop the individual selections,
then reset group mode. -/
def clearAllSelections (data : List GeoFeature) (s : WidgetState) : WidgetState :=
  let vs := s.selectedFeatures.foldl (fun vs f => clearFeatureVisual data vs f.id) s.visual
  resetGroupMode data { s with visual := vs, selectedFeatures := [] }

/-- `switchSelectionMode(newMode)`: no-op on the same mode; otherwise
clear everything, set the mode, and either sync the (now empty)
individual selection or start group selection. -/
def switchSelectionMode (data : List GeoFeature) (newMode : SelectionMode) (s : WidgetState) :
    WidgetState × List SyncEvent :=
  if newMode = s.selectionMode then (s, [])
  else
    let s1 := clearAllSelections data s
    let s2 := { s1 with selectionMode := newMode }
    if newMode = .individual then (s2, syncToPython s2)
    else transitionGroupState data .START_SELECTING s2

/-- The overlay type established by the working groups:
`group1Features[0]?.overlay_type || group2Features[0]?.overlay_type`,
with the empty string standing for undefined. -/
def establishedGroupOverlayType (s : WidgetState) : String :=
  jsOrS
    (match s.group1Features with | f :: _ => f.overlay_type | [] => "")
    (match s.group2Features with | f :: _ => f.overlay_type | [] => "")

/-- `validateOverlayType(props)`: reject a click whose overlay type
differs from the individual set's established type (individual mode) or
from the working groups' established type (group mode). -/
def validateOverlayType (props : GeoProps) (s : WidgetState) : Bool :=
  let indReject :=
    s.selectionMode == .individual &&
      (match s.selectedFeatures with
       | f :: _ => props.overlay_type != f.overlay_type
       | [] => false)
  let existingType := establishedGroupOverlayType s
  let grpReject :=
    s.selectionMode == .group && existingType != "" && props.overlay_type != existingType
  !indReject && !grpReject

/-- `MAX_SELECTIONS` for the individual mode. -/
def MAX_SELECTIONS : Nat := 2

/-- `handleIndividualClick(featureId, props, labelValue)`: toggle off an
already-selected feature, otherwise append with FIFO eviction of the
oldest entry at the maximum of 2, then sync. -/
def handleIndividualClick (data : List GeoFeature) (featureId : Nat) (props : GeoProps)
    (labelValue : String) (s : WidgetState) : WidgetState × List SyncEvent :=
  match s.selectedFeatures.findIdx? (fun f => f.id == props.feature_id) with
  | some existingIndex =>
    let s1 : WidgetState :=
      { s with
        selectedFeatures := s.selectedFeatures.eraseIdx existingIndex
        visual := setFeatureStateSelected s.visual featureId false }
    (s1, syncToPython s1)
  | none =>
    let s1 : WidgetState :=
      if s.selectedFeatures.length ≥ MAX_SELECTIONS then
        match s.selectedFeatures with
        | oldest :: rest =>
          let vs :=
            match data.find? (fun gf => gf.props.feature_id == oldest.id) with
            | some oldFeature => setFeatureStateSelected s.visual oldFeature.id false
            | none => s.visual
          { s with selectedFeatures := rest, visual := vs }
        | [] => s
      else s
    let s2 : WidgetState :=
      { s1 with
        selectedFeatures := s1.selectedFeatures ++ [buildFeatureObject props labelValue]
        visual := setFeatureStateSelected s1.visual featureId true }
    (s2, syncToPython s2)

/-- `handleGroupClick(featureId, props, labelValue)`: toggle membership in
the active working group (Group1 while SELECTING_G1 or IDLE, Group2
otherwise), rejecting features already in the confirmed Group1, updating
the membership map and visual state.  No sync. -/
def handleGroupClick (featureId : Nat) (props : GeoProps) (labelValue : String)
    (s : WidgetState) : WidgetState :=
  let activeIsG1 : Bool :=
    s.groupModeState = .SELECTING_G1 ∨ s.groupModeState = .IDLE
  let activeGroup : String := if activeIsG1 then "group1" else "group2"
  let activeArray := if activeIsG1 then s.group1Features else s.group2Features
  let inConfirmedG1 :=
    match s.confirmedGroup1 with
    | some g => g.features.any (fun f => f.id == props.feature_id)
    | none => false
  if activeIsG1 = false ∧ inConfirmedG1 = true then s
  else
    match activeArray.findIdx? (fun f => f.id == props.feature_id) with
    | some existingIndex =>
      let newArray := activeArray.eraseIdx existingIndex
      let s1 : WidgetState :=
        if activeIsG1 then { s with group1Features := newArray }
        else { s with group2Features := newArray }
      { s1 with
        featureGroupMap := fgmDelete s1.featureGroupMap props.feature_id
        visual := setFeatureStateFull s1.visual featureId false none }
    | none =>
      let newArray := activeArray ++ [buildFeatureObject props labelValue]
      let s1 : WidgetState :=
        if activeIsG1 then { s with group1Features := newArray }
        else { s with group2Features := newArray }
      { s1 with
        featureGroupMap := fgmSet s1.featureGroupMap props.feature_id activeGroup
        visual := setFeatureStateFull s1.visual featureId true (some activeGroup) }

/-- The `map.on(click, parcels-fill)` handler: resolve the label, validate
the overlay type, and route to the mode-specific handler. -/
def mapClick (data : List GeoFeature) (f : GeoFeature) (s : WidgetState) :
    WidgetState × List SyncEvent :=
  let featureId := f.id
  let props := f.props
  let labelValue := jsOrS props.display_label "N/A"
  if validateOverlayType props s = false then (s, [])
  else if s.selectionMode = .individual then
    handleIndividualClick data featureId props labelValue s
  else
    (handleGroupClick featureId props labelValue s, [])

/-- A discrete input event of the widget: a map click on a feature, a
mode-toggle click, or one of the three group-mode buttons (whose handlers
call `transitionGroupState` with the corresponding action). -/
inductive Event
  | click (f : GeoFeature)
  | setMode (m : SelectionMode)
  | confirm
  | reset
  | compare
  deriving DecidableEq, Repr

/-- One event handled to completion: the resulting state and the pushes
to host state it performed. -/
def step (data : List GeoFeature) (s : WidgetState) (e : Event) :
    WidgetState × List SyncEvent :=
  match e with
  | .click f => mapClick data f s
  | .setMode m => switchSelectionMode data m s
  | .confirm => transitionGroupState data .CONFIRM s
  | .reset => transitionGroupState data .RESET s
  | .compare => transitionGroupState data .COMPARE s

/-- A sequence of events handled in dispatch order, concatenating the
sync pushes. -/
def run (data : List GeoFeature) (s : WidgetState) : List Event → WidgetState × List SyncEvent
  | [] => (s, [])
  | e :: es =>
    let r1 := step data s e
    let r2 := run data r1.1 es
    (r2.1, r1.2 ++ r2.2)

/-- Recognizes map-click events. -/
def isClickEvent : Event → Bool
  | .click _ => true
  | _ => false

/-- Recognizes group-comparison sync pushes among the host pushes. -/
def isGroupSync : SyncEvent → Bool
  | .groupComparison _ _ => true
  | _ => false

/-- Snapshot invariant of the group state machine: while a group is still
being built, its own (and any later) confirmed snapshot does not exist
yet.  It rules out a CONFIRM overwriting an existing snapshot. -/
def ConfirmInv (s : WidgetState) : Prop :=
  ((s.groupModeState = .IDLE ∨ s.groupModeState = .SELECTING_G1) →
    s.confirmedGroup1 = none ∧ s.confirmedGroup2 = none) ∧
  (s.groupModeState = .SELECTING_G2 → s.confirmedGroup2 = none)

/-- A sample property bag used for concrete scenarios. -/
def demoProps (fid ot : String) (lot tax : ℚ) : GeoProps :=
  { feature_id := fid
    overlay_type := ot
    display_label := fid
    total_value := 10
    land_value := 6
    lot_size := lot
    net_taxes := tax
    net_taxes_per_sqft := 0
    taxes_per_city_street_sqft := 0
    land_value_per_sqft := 0
    alignment_index := 1 }

/-- Sample map features. -/
def demoA : GeoFeature := ⟨1, demoProps "A" "parcels" 1000 100⟩

/-- Sample map feature B. -/
def demoB : GeoFeature := ⟨2, demoProps "B" "parcels" 2000 300⟩

/-- Sample map feature C. -/
def demoC : GeoFeature := ⟨3, demoProps "C" "parcels" 500 50⟩

/-- Sample map feature D. -/
def demoD : GeoFeature := ⟨4, demoProps "D" "parcels" 700 70⟩

/-- Sample map feature of a different overlay type. -/
def demoX : GeoFeature := ⟨9, demoProps "X" "area_plans" 100 10⟩

/-- A sample feature collection. -/
def demoData : List GeoFeature := [demoA, demoB, demoC, demoD, demoX]

/-- A reachable state in group mode with both groups confirmed
(COMPLETE): enter group mode, build and confirm Group1 = [A, B], build
and confirm Group2 = [C]. -/
def demoCompleteState : WidgetState :=
  (run demoData initialState
    [.setMode .group, .click demoA, .click demoB, .confirm, .click demoC, .confirm]).1

/-- A reachable state while building Group1 = [A, B]. -/
def demoG1State : WidgetState :=
  (run demoData initialState [.setMode .group, .click demoA, .click demoB]).1

/-- A reachable state in individual mode with one selected feature. -/
def demoIndState : WidgetState :=
  (run demoData initialState [.click demoA]).1

/-- A reachable state in individual mode with two selected features. -/
def demoInd2State : WidgetState :=
  (run demoData initialState [.click demoA, .click demoB]).1

/-- Sample selection entries for aggregate computations (lot sizes 1000
and 2000, net taxes 100 and 300, as in the specification's example). -/
def sampleA : FeatureObj := buildFeatureObject (demoProps "A" "parcels" 1000 100) "A"

/-- Second sample selection entry. -/
def sampleB : FeatureObj := buildFeatureObject (demoProps "B" "parcels" 2000 300) "B"

/-- A sample selection entry with zero lot size. -/
def sampleZ : FeatureObj := buildFeatureObject (demoProps "Z" "parcels" 0 0) "Z"

end ParcelWidget

namespace ColorMapper

/-- Magma colormap stops from src/pages/parcel_map.py: (normalized
position, RGB triple), light to dark. -/
def MAGMA_STOPS : List (ℚ × ℤ × ℤ × ℤ) :=
  [(0, 252, 253, 191),
   (1/4, 252, 143, 89),
   (1/2, 183, 55, 121),
   (3/4, 82, 22, 108),
   (1, 0, 0, 4)]

/-- Python `int()` applied to a rational: truncation toward zero. -/
def pyInt (x : ℚ) : ℤ := if 0 ≤ x then ⌊x⌋ else -⌊-x⌋

/-- The loop body of `interpolate_magma_color`: walk consecutive stop
pairs; on the segment containing `v`, linearly interpolate each channel
and truncate to an integer. -/
def interpSegments : List (ℚ × ℤ × ℤ × ℤ) → ℚ → Option (ℤ × ℤ × ℤ)
  | (pos1, r1, g1, b1) :: (pos2, r2, g2, b2) :: rest, v =>
    if pos1 ≤ v ∧ v ≤ pos2 then
      let t := (v - pos1) / (pos2 - pos1)
      some (pyInt ((r1 : ℚ) + t * ((r2 : ℚ) - r1)),
            pyInt ((g1 : ℚ) + t * ((g2 : ℚ) - g1)),
            pyInt ((b1 : ℚ) + t * ((b2 : ℚ) - b1)))
    else interpSegments ((pos2, r2, g2, b2) :: rest) v
  | _, _ => none

/-- `interpolate_magma_color(norm_val)`: the segment walk with the
fall-through to the last stop's color. -/
def interpolate_magma_color (v : ℚ) : ℤ × ℤ × ℤ :=
  (interpSegments MAGMA_STOPS v).getD (0, 0, 4)

/-- `np.nanpercentile(xs, q)` for a NaN-free list, linear interpolation
method: on the sorted data, index h = q(n-1)/100, interpolate between the
floor and ceiling neighbours. -/
def nanpercentile (xs : List ℚ) (q : ℚ) : ℚ :=
  let sorted := List.insertionSort (· ≤ ·) xs
  if sorted.length = 0 then 0
  else
    let n := sorted.length
    let h := q * ((n : ℚ) - 1) / 100
    let lo := (⌊h⌋).toNat
    let hi := (⌈h⌉).toNat
    let a := sorted.getD lo 0
    let b := sorted.getD hi 0
    a + (h - (lo : ℚ)) * (b - a)

/-- The gray RGBA used for missing values: `[128, 128, 128, 100]`. -/
def grayColor : List ℤ := [128, 128, 128, 100]

/-- A sample value list with a missing entry and a single valid value
(so the 2nd and 98th percentiles coincide). -/
def demoVals : List (Option ℚ) := [none, some 5]

/-- `calculate_colors(values)` from src/pages/parcel_map.py.  A value of
`none` models a NaN entry.  Returns (colors, p2, p98) where p98 is the
possibly-widened high clip bound. -/
def calculate_colors (values : List (Option ℚ)) : List (List ℤ) × ℚ × ℚ :=
  let valid_values := values.filterMap id
  if valid_values.length = 0 then
    (List.replicate values.length grayColor, 0, 0)
  else
    let p2 := nanpercentile valid_values 2
    let p98x := nanpercentile valid_values 98
    let p98 := if p98x = p2 then p2 + 1 else p98x
    let colors := values.map fun val =>
      match val with
      | none => grayColor
      | some v =>
        let norm_val := min (max ((v - p2) / (p98 - p2)) 0) 1
        let rgb := interpolate_magma_color norm_val
        [rgb.1, rgb.2.1, rgb.2.2, 180]
    (colors, p2, p98)

end ColorMapper

/-! ## Helper lemmas -/

namespace ParcelWidget

lemma jsOrQ_zero (x : ℚ) : jsOrQ x 0 = x := by
  unfold jsOrQ
  split <;> simp_all

lemma foldl_add_jsOrQ (g : FeatureObj → ℚ) :
    ∀ (l : List FeatureObj) (c : ℚ),
      l.foldl (fun acc f => acc + jsOrQ (g f) 0) c = c + (l.map g).sum := by
  intro l
  induction l with
  | nil => intro c; simp
  | cons a t ih =>
    intro c
    rw [List.foldl_cons, ih, jsOrQ_zero, List.map_cons, List.sum_cons]
    ring

end ParcelWidget

namespace ColorMapper

lemma replicate_get? {α : Type} (n i : Nat) (a : α) (h : i < n) :
    (List.replicate n a).get? i = some a := by
  induction n generalizing i with
  | zero => omega
  | succ m ih =>
    cases i with
    | zero => simp [List.replicate_succ]
    | succ j =>
      simp only [List.replicate_succ, List.get?_cons_succ]
      exact ih j (by omega)

end ColorMapper

/-! ## Claim theorems -/

namespace ParcelWidget

/-- C5: for every non-empty feature list, the group aggregate has count
equal to the number of features, the four raw metrics summed, the
per-sqft metrics recomputed from the sums when the summed lot size is
positive and 0 otherwise (total, no division error), and the alignment
index the unweighted arithmetic mean of the per-feature values. -/
theorem C5_theorem (features : List FeatureObj) (h : features ≠ []) :
    ∃ a, calculateGroupAggregate features = some a ∧
      a.count = features.length ∧
      a.total_value = (features.map fun f => f.properties.total_value).sum ∧
      a.land_value = (features.map fun f => f.properties.land_value).sum ∧
      a.lot_size = (features.map fun f => f.properties.lot_size).sum ∧
      a.net_taxes = (features.map fun f => f.properties.net_taxes).sum ∧
      (0 < (features.map fun f => f.properties.lot_size).sum →
        a.net_taxes_per_sqft =
          (features.map fun f => f.properties.net_taxes).sum /
            (features.map fun f => f.properties.lot_size).sum ∧
        a.land_value_per_sqft =
          (features.map fun f => f.properties.land_value).sum /
            (features.map fun f => f.properties.lot_size).sum) ∧
      (¬ 0 < (features.map fun f => f.properties.lot_size).sum →
        a.net_taxes_per_sqft = 0 ∧ a.land_value_per_sqft = 0) ∧
      a.alignment_index =
        (features.map fun f => f.properties.alignment_index).sum / features.length := by
  have hlen : ¬ features.length = 0 := by
    simpa [List.length_eq_zero] using h
  unfold calculateGroupAggregate
  rw [if_neg hlen]
  simp only [foldl_add_jsOrQ, zero_add, gt_iff_lt]
  by_cases hlot : 0 < (features.map fun f => f.properties.lot_size).sum
  · simp only [if_pos hlot]
    exact ⟨_, rfl, rfl, rfl, rfl, rfl, rfl, fun _ => ⟨rfl, rfl⟩,
      fun hn => absurd hlot hn, rfl⟩
  · simp only [if_neg hlot]
    exact ⟨_, rfl, rfl, rfl, rfl, rfl, rfl, fun hp => absurd hp hlot,
      fun _ => ⟨rfl, rfl⟩, rfl⟩

/-- Witness for C5 at the specification's concrete example (lot sizes
1000 and 2000, net taxes 100 and 300, giving 400/3000), plus a zero
lot size group yielding 0. -/
theorem C5_witness :
    (([sampleA, sampleB] : List FeatureObj) ≠ [] ∧
      (calculateGroupAggregate [sampleA, sampleB]).map Aggregate.net_taxes_per_sqft
        = some (400 / 3000)) ∧
    (([sampleZ] : List FeatureObj) ≠ [] ∧
      (calculateGroupAggregate [sampleZ]).map Aggregate.net_taxes_per_sqft = some 0) := by
  constructor
  · refine ⟨List.cons_ne_nil _ _, ?_⟩
    obtain ⟨a, ha, -, -, -, -, -, hpos, -, -⟩ :=
      C5_theorem [sampleA, sampleB] (List.cons_ne_nil _ _)
    have hlot : (List.map (fun f => f.properties.lot_size) [sampleA, sampleB]).sum = 3000 := by
      norm_num [sampleA, sampleB, buildFeatureObject, demoProps]
    have hnet : (List.map (fun f => f.properties.net_taxes) [sampleA, sampleB]).sum = 400 := by
      norm_num [sampleA, sampleB, buildFeatureObject, demoProps]
    obtain ⟨h1, -⟩ := hpos (by rw [hlot]; norm_num)
    rw [hlot, hnet] at h1
    rw [ha]
    simp only [Option.map]
    rw [h1]
  · refine ⟨List.cons_ne_nil _ _, ?_⟩
    obtain ⟨a, ha, -, -, -, -, -, -, hneg, -⟩ := C5_theorem [sampleZ] (List.cons_ne_nil _ _)
    have hlot : (List.map (fun f => f.properties.lot_size) [sampleZ]).sum = 0 := by
      norm_num [sampleZ, buildFeatureObject, demoProps]
    obtain ⟨h1, -⟩ := hneg (by rw [hlot]; norm_num)
    rw [ha]
    simp only [Option.map]
    rw [h1]

end ParcelWidget

namespace ColorMapper

/-- C9: for every input value list, `calculate_colors` is total and
returns a color list of the same length; it handles the empty list, every
missing value maps to the fixed neutral gray with reduced opacity (100),
every non-missing value maps to a color with the distinct non-missing
opacity (180), and when the 2nd and 98th percentiles coincide the
returned high clip bound is the low bound widened by +1. -/
theorem C9_theorem (values : List (Option ℚ)) :
    ((calculate_colors values).1).length = values.length ∧
    (values = [] → calculate_colors values = ([], 0, 0)) ∧
    (∀ i, values.get? i = some none → ((calculate_colors values).1).get? i = some grayColor) ∧
    (∀ i v, values.get? i = some (some v) →
      ∃ r g b, ((calculate_colors values).1).get? i = some [r, g, b, 180]) ∧
    (values.filterMap id ≠ [] →
      nanpercentile (values.filterMap id) 98 = nanpercentile (values.filterMap id) 2 →
      (calculate_colors values).2.2 = (calculate_colors values).2.1 + 1) := by
  by_cases hv : (values.filterMap id).length = 0
  · have hnil : values.filterMap id = [] := List.length_eq_zero.mp hv
    refine ⟨?_, ?_, ?_, ?_, ?_⟩
    · simp [calculate_colors, hv]
    · intro h
      subst h
      simp [calculate_colors]
    · intro i hi
      have hlt : i < values.length := (List.get?_eq_some.mp hi).1
      simp only [calculate_colors, if_pos hv]
      exact replicate_get? _ _ _ hlt
    · intro i v hi
      exfalso
      have hmem : (some v) ∈ values := List.get?_mem hi
      have hx := List.filterMap_eq_nil.mp hnil (some v) hmem
      simp at hx
    · intro hne _
      exact absurd hnil hne
  · refine ⟨?_, ?_, ?_, ?_, ?_⟩
    · simp [calculate_colors, hv]
    · intro h
      subst h
      simp at hv
    · intro i hi
      simp only [calculate_colors, if_neg hv]
      rw [List.get?_map, hi]
      rfl
    · intro i v hi
      simp only [calculate_colors, if_neg hv]
      rw [List.get?_map, hi]
      exact ⟨_, _, _, rfl⟩
    · intro _ hpq
      simp only [calculate_colors, if_neg hv]
      simp [hpq]

/-- Witness for C9 on the concrete list [NaN, 5]: the missing entry maps
to gray, the valid entry to an opacity-180 color, the empty list returns
([], 0, 0), and the degenerate percentile range is widened by +1. -/
theorem C9_witness :
    ((calculate_colors demoVals).1).get? 0 = some grayColor ∧
    (∃ r g b, ((calculate_colors demoVals).1).get? 1 = some [r, g, b, 180]) ∧
    calculate_colors ([] : List (Option ℚ)) = ([], 0, 0) ∧
    (demoVals.filterMap id ≠ [] ∧
      nanpercentile (demoVals.filterMap id) 98 = nanpercentile (demoVals.filterMap id) 2 ∧
      (calculate_colors demoVals).2.2 = (calculate_colors demoVals).2.1 + 1) := by
  have hne : demoVals.filterMap id ≠ [] := by simp [demoVals]
  have hpq : nanpercentile (demoVals.filterMap id) 98 = nanpercentile (demoVals.filterMap id) 2 := by
    norm_num [demoVals, nanpercentile, List.insertionSort, List.orderedInsert]
  exact ⟨(C9_theorem demoVals).2.2.1 0 rfl,
    (C9_theorem demoVals).2.2.2.1 1 5 rfl,
    (C9_theorem []).2.1 rfl,
    hne, hpq, (C9_theorem demoVals).2.2.2.2 hne hpq⟩

end ColorMapper

namespace ParcelWidget

lemma getVisual_setVisual (vs : VisualMap) (i j : Nat) (v : FeatureVisual) :
    getVisual (setVisual vs i v) j = if i = j then v else getVisual vs j := by
  induction vs with
  | nil =>
    simp only [setVisual, getVisual]
  | cons p rest ih =>
    obtain ⟨k, w⟩ := p
    simp only [setVisual]
    by_cases hk : k = i
    · simp only [if_pos hk, getVisual]
      by_cases hij : i = j
      · simp [hij]
      · have hkj : ¬ k = j := by rw [hk]; exact hij
        simp [hij, hkj]
    · simp only [if_neg hk, getVisual]
      by_cases hkj : k = j
      · have hij : ¬ i = j := by rw [← hkj]; exact fun hc => hk hc.symm
        simp [hkj, hij]
      · simp [hkj, ih]

lemma clearFeatureVisual_cases (data : List GeoFeature) (vs : VisualMap) (fid : String)
    (i : Nat) :
    getVisual (clearFeatureVisual data vs fid) i = getVisual vs i ∨
    getVisual (clearFeatureVisual data vs fid) i = defaultVisual := by
  unfold clearFeatureVisual
  cases h : data.find? (fun gf => gf.props.feature_id == fid) with
  | none => exact Or.inl rfl
  | some feature =>
    unfold setFeatureStateFull
    rw [getVisual_setVisual]
    by_cases hij : feature.id = i
    · right
      simp [hij, defaultVisual]
    · left
      simp [hij]

lemma clearFeatureVisual_default (data : List GeoFeature) (vs : VisualMap) (fid : String)
    (i : Nat) (h : getVisual vs i = defaultVisual) :
    getVisual (clearFeatureVisual data vs fid) i = defaultVisual := by
  rcases clearFeatureVisual_cases data vs fid i with hc | hc
  · rw [hc, h]
  · exact hc

lemma clearFeatureVisual_hit (data : List GeoFeature) (vs : VisualMap) (fid : String)
    (gf : GeoFeature) (h : data.find? (fun g => g.props.feature_id == fid) = some gf) :
    getVisual (clearFeatureVisual data vs fid) gf.id = defaultVisual := by
  unfold clearFeatureVisual
  rw [h]
  unfold setFeatureStateFull
  rw [getVisual_setVisual]
  simp [defaultVisual]

lemma clearFold_default (data : List GeoFeature) (L : List FeatureObj) :
    ∀ (vs : VisualMap) (i : Nat), getVisual vs i = defaultVisual →
      getVisual (L.foldl (fun vs f => clearFeatureVisual data vs f.id) vs) i = defaultVisual := by
  induction L with
  | nil => intro vs i h; simpa using h
  | cons a t ih =>
    intro vs i h
    rw [List.foldl_cons]
    exact ih _ _ (clearFeatureVisual_default data vs a.id i h)

lemma clearFold_member (data : List GeoFeature) (L : List FeatureObj) :
    ∀ (vs : VisualMap) (fobj : FeatureObj), fobj ∈ L →
      ∀ gf, data.find? (fun g => g.props.feature_id == fobj.id) = some gf →
      getVisual (L.foldl (fun vs f => clearFeatureVisual data vs f.id) vs) gf.id
        = defaultVisual := by
  induction L with
  | nil =>
    intro vs fobj h
    cases h
  | cons a t ih =>
    intro vs fobj hmem gf hfind
    rw [List.foldl_cons]
    rcases List.mem_cons.mp hmem with rfl | hmem2
    · exact clearFold_default data t _ gf.id (clearFeatureVisual_hit data vs fobj.id gf hfind)
    · exact ih _ fobj hmem2 gf hfind

@[simp] lemma resetGroupMode_selectionMode (data : List GeoFeature) (s : WidgetState) :
    (resetGroupMode data s).selectionMode = s.selectionMode := by
  unfold resetGroupMode
  by_cases h : s.selectionMode = .group <;> simp [h]

@[simp] lemma resetGroupMode_selectedFeatures (data : List GeoFeature) (s : WidgetState) :
    (resetGroupMode data s).selectedFeatures = s.selectedFeatures := by
  unfold resetGroupMode
  by_cases h : s.selectionMode = .group <;> simp [h]

@[simp] lemma resetGroupMode_group1 (data : List GeoFeature) (s : WidgetState) :
    (resetGroupMode data s).group1Features = [] := by
  unfold resetGroupMode
  by_cases h : s.selectionMode = .group <;> simp [h]

@[simp] lemma resetGroupMode_group2 (data : List GeoFeature) (s : WidgetState) :
    (resetGroupMode data s).group2Features = [] := by
  unfold resetGroupMode
  by_cases h : s.selectionMode = .group <;> simp [h]

@[simp] lemma resetGroupMode_confirmed1 (data : List GeoFeature) (s : WidgetState) :
    (resetGroupMode data s).confirmedGroup1 = none := by
  unfold resetGroupMode
  by_cases h : s.selectionMode = .group <;> simp [h]

@[simp] lemma resetGroupMode_confirmed2 (data : List GeoFeature) (s : WidgetState) :
    (resetGroupMode data s).confirmedGroup2 = none := by
  unfold resetGroupMode
  by_cases h : s.selectionMode = .group <;> simp [h]

@[simp] lemma resetGroupMode_fgm (data : List GeoFeature) (s : WidgetState) :
    (resetGroupMode data s).featureGroupMap = [] := by
  unfold resetGroupMode
  by_cases h : s.selectionMode = .group <;> simp [h]

lemma resetGroupMode_state (data : List GeoFeature) (s : WidgetState) :
    (resetGroupMode data s).groupModeState =
      (if s.selectionMode = .group then .SELECTING_G1 else .IDLE) := by
  unfold resetGroupMode
  by_cases h : s.selectionMode = .group <;> simp [h]

lemma resetGroupMode_visual (data : List GeoFeature) (s : WidgetState) :
    (resetGroupMode data s).visual =
      (s.group1Features ++ s.group2Features).foldl
        (fun vs f => clearFeatureVisual data vs f.id) s.visual := by
  unfold resetGroupMode
  by_cases h : s.selectionMode = .group <;> simp [h]

end ParcelWidget

namespace ParcelWidget

lemma handleGroupClick_frame (i : Nat) (p : GeoProps) (l : String) (s : WidgetState) :
    (handleGroupClick i p l s).selectionMode = s.selectionMode ∧
    (handleGroupClick i p l s).groupModeState = s.groupModeState ∧
    (handleGroupClick i p l s).selectedFeatures = s.selectedFeatures ∧
    (handleGroupClick i p l s).confirmedGroup1 = s.confirmedGroup1 ∧
    (handleGroupClick i p l s).confirmedGroup2 = s.confirmedGroup2 := by
  simp only [handleGroupClick]
  repeat' split
  all_goals simp_all

lemma handleIndividualClick_frame (data : List GeoFeature) (i : Nat) (p : GeoProps)
    (l : String) (s : WidgetState) :
    ((handleIndividualClick data i p l s).1).selectionMode = s.selectionMode ∧
    ((handleIndividualClick data i p l s).1).groupModeState = s.groupModeState ∧
    ((handleIndividualClick data i p l s).1).group1Features = s.group1Features ∧
    ((handleIndividualClick data i p l s).1).group2Features = s.group2Features ∧
    ((handleIndividualClick data i p l s).1).confirmedGroup1 = s.confirmedGroup1 ∧
    ((handleIndividualClick data i p l s).1).confirmedGroup2 = s.confirmedGroup2 ∧
    ((handleIndividualClick data i p l s).1).featureGroupMap = s.featureGroupMap := by
  simp only [handleIndividualClick]
  repeat' split
  all_goals simp_all

lemma mapClick_frame (data : List GeoFeature) (f : GeoFeature) (s : WidgetState) :
    ((mapClick data f s).1).selectionMode = s.selectionMode ∧
    ((mapClick data f s).1).groupModeState = s.groupModeState ∧
    ((mapClick data f s).1).confirmedGroup1 = s.confirmedGroup1 ∧
    ((mapClick data f s).1).confirmedGroup2 = s.confirmedGroup2 := by
  simp only [mapClick]
  split
  · exact ⟨rfl, rfl, rfl, rfl⟩
  · split
    · obtain ⟨h1, h2, -, -, h5, h6, -⟩ := handleIndividualClick_frame data f.id f.props
        (jsOrS f.props.display_label "N/A") s
      exact ⟨h1, h2, h5, h6⟩
    · obtain ⟨h1, h2, -, h4, h5⟩ := handleGroupClick_frame f.id f.props
        (jsOrS f.props.display_label "N/A") s
      exact ⟨h1, h2, h4, h5⟩

lemma transitionGroupState_frame (data : List GeoFeature) (a : GroupAction) (s : WidgetState) :
    ((transitionGroupState data a s).1).selectedFeatures = s.selectedFeatures ∧
    ((transitionGroupState data a s).1).selectionMode = s.selectionMode := by
  unfold transitionGroupState
  cases hs : s.groupModeState
  all_goals repeat' split
  all_goals simp_all

end ParcelWidget

namespace ParcelWidget

/-- C4: for every RESET taken from SELECTING_G1, SELECTING_G2 or COMPLETE
while the selection mode is group, the resulting state is SELECTING_G1
with both confirmed groups null, both working groups empty, and the
feature-group membership map empty. -/
theorem C4_theorem (data : List GeoFeature) (s : WidgetState)
    (hm : s.selectionMode = .group)
    (hs : s.groupModeState = .SELECTING_G1 ∨ s.groupModeState = .SELECTING_G2 ∨
      s.groupModeState = .COMPLETE) :
    ((transitionGroupState data .RESET s).1).groupModeState = .SELECTING_G1 ∧
    ((transitionGroupState data .RESET s).1).confirmedGroup1 = none ∧
    ((transitionGroupState data .RESET s).1).confirmedGroup2 = none ∧
    ((transitionGroupState data .RESET s).1).group1Features = [] ∧
    ((transitionGroupState data .RESET s).1).group2Features = [] ∧
    ((transitionGroupState data .RESET s).1).featureGroupMap = [] := by
  rcases hs with h | h | h <;>
    simp [transitionGroupState, h, hm, resetGroupMode_state]

/-- Witness for C4 at a concrete reachable COMPLETE state. -/
theorem C4_witness :
    demoCompleteState.selectionMode = .group ∧
    demoCompleteState.groupModeState = .COMPLETE ∧
    ((transitionGroupState demoData .RESET demoCompleteState).1).groupModeState
      = .SELECTING_G1 := by
  refine ⟨by decide, by decide, ?_⟩
  exact (C4_theorem demoData demoCompleteState (by decide) (Or.inr (Or.inr (by decide)))).1

/-- C6: a click on a feature whose overlay type differs from the
established overlay type of the current selection (the individual set's
first entry in individual mode; the type established by whichever working
group is non-empty in group mode) is a no-op: the state is returned
exactly unchanged and no sync is pushed. -/
theorem C6_theorem (data : List GeoFeature) (f : GeoFeature) (s : WidgetState) :
    (∀ a rest, s.selectionMode = .individual → s.selectedFeatures = a :: rest →
      f.props.overlay_type ≠ a.overlay_type → mapClick data f s = (s, [])) ∧
    (s.selectionMode = .group → establishedGroupOverlayType s ≠ "" →
      f.props.overlay_type ≠ establishedGroupOverlayType s → mapClick data f s = (s, [])) := by
  constructor
  · intro a rest hm hsel hne
    have hval : validateOverlayType f.props s = false := by
      simp [validateOverlayType, hm, hsel, bne_iff_ne, hne]
    simp [mapClick, hval]
  · intro hm hty hne
    have hval : validateOverlayType f.props s = false := by
      simp [validateOverlayType, hm, bne_iff_ne, hty, hne]
    simp [mapClick, hval]

/-- Witness for C6: clicking an area-plan feature while a parcel is
individually selected, and while parcel groups are being built, is
rejected without any state change. -/
theorem C6_witness :
    mapClick demoData demoX demoIndState = (demoIndState, []) ∧
    mapClick demoData demoX demoG1State = (demoG1State, []) := by
  constructor
  · exact (C6_theorem demoData demoX demoIndState).1
      (buildFeatureObject (demoProps "A" "parcels" 1000 100) "A") []
      (by decide) (by decide) (by decide)
  · exact (C6_theorem demoData demoX demoG1State).2 (by decide) (by decide) (by decide)

/-- C10: a confirmed group snapshot is never altered by clicks: every map
click (in any mode and any state, including clicks processed after the
state machine reaches COMPLETE) leaves both confirmed groups' feature
lists exactly unchanged, and so does any sequence of clicks. -/
theorem C10_theorem (data : List GeoFeature) :
    (∀ s f, ((mapClick data f s).1).confirmedGroup1 = s.confirmedGroup1 ∧
      ((mapClick data f s).1).confirmedGroup2 = s.confirmedGroup2) ∧
    (∀ s es, (∀ e ∈ es, isClickEvent e = true) →
      ((run data s es).1).confirmedGroup1 = s.confirmedGroup1 ∧
      ((run data s es).1).confirmedGroup2 = s.confirmedGroup2) := by
  constructor
  · intro s f
    obtain ⟨-, -, h3, h4⟩ := mapClick_frame data f s
    exact ⟨h3, h4⟩
  · intro s es
    induction es generalizing s with
    | nil =>
      intro _
      exact ⟨rfl, rfl⟩
    | cons e t ih =>
      intro hall
      have he : isClickEvent e = true := hall e (List.mem_cons_self e t)
      have ht : ∀ x ∈ t, isClickEvent x = true := fun x hx => hall x (List.mem_cons_of_mem e hx)
      cases e with
      | click f =>
        simp only [run, step]
        obtain ⟨ih1, ih2⟩ := ih (mapClick data f s).1 ht
        obtain ⟨-, -, h3, h4⟩ := mapClick_frame data f s
        exact ⟨ih1.trans h3, ih2.trans h4⟩
      | setMode m => simp [isClickEvent] at he
      | confirm => simp [isClickEvent] at he
      | reset => simp [isClickEvent] at he
      | compare => simp [isClickEvent] at he

/-- Witness for C10: a click processed in the COMPLETE state leaves the
confirmed Group1 snapshot unchanged. -/
theorem C10_witness :
    (∀ e ∈ [Event.click demoD], isClickEvent e = true) ∧
    ((run demoData demoCompleteState [Event.click demoD]).1).confirmedGroup1
      = demoCompleteState.confirmedGroup1 := by
  refine ⟨by decide, ?_⟩
  exact ((C10_theorem demoData).2 demoCompleteState [Event.click demoD] (by decide)).1

end ParcelWidget

namespace ParcelWidget

@[simp] lemma clearAllSelections_selectionMode (data : List GeoFeature) (s : WidgetState) :
    (clearAllSelections data s).selectionMode = s.selectionMode := by
  unfold clearAllSelections
  simp

@[simp] lemma clearAllSelections_selectedFeatures (data : List GeoFeature) (s : WidgetState) :
    (clearAllSelections data s).selectedFeatures = [] := by
  unfold clearAllSelections
  simp

@[simp] lemma clearAllSelections_group1 (data : List GeoFeature) (s : WidgetState) :
    (clearAllSelections data s).group1Features = [] := by
  unfold clearAllSelections
  simp

@[simp] lemma clearAllSelections_group2 (data : List GeoFeature) (s : WidgetState) :
    (clearAllSelections data s).group2Features = [] := by
  unfold clearAllSelections
  simp

@[simp] lemma clearAllSelections_confirmed1 (data : List GeoFeature) (s : WidgetState) :
    (clearAllSelections data s).confirmedGroup1 = none := by
  unfold clearAllSelections
  simp

@[simp] lemma clearAllSelections_confirmed2 (data : List GeoFeature) (s : WidgetState) :
    (clearAllSelections data s).confirmedGroup2 = none := by
  unfold clearAllSelections
  simp

@[simp] lemma clearAllSelections_fgm (data : List GeoFeature) (s : WidgetState) :
    (clearAllSelections data s).featureGroupMap = [] := by
  unfold clearAllSelections
  simp

lemma clearAllSelections_state (data : List GeoFeature) (s : WidgetState) :
    (clearAllSelections data s).groupModeState =
      (if s.selectionMode = .group then .SELECTING_G1 else .IDLE) := by
  unfold clearAllSelections
  rw [resetGroupMode_state]

lemma clearAllSelections_visual (data : List GeoFeature) (s : WidgetState) :
    (clearAllSelections data s).visual =
      (s.group1Features ++ s.group2Features).foldl
        (fun vs f => clearFeatureVisual data vs f.id)
        (s.selectedFeatures.foldl (fun vs f => clearFeatureVisual data vs f.id) s.visual) := by
  unfold clearAllSelections
  rw [resetGroupMode_visual]

lemma transitionGroupState_start (data : List GeoFeature) (s : WidgetState) :
    (transitionGroupState data .START_SELECTING s).1 =
      (if s.groupModeState = .IDLE then { s with groupModeState := .SELECTING_G1 } else s) := by
  unfold transitionGroupState
  cases hs : s.groupModeState
  all_goals repeat' split
  all_goals simp_all

lemma transitionGroupState_sync (data : List GeoFeature) (a : GroupAction) (s : WidgetState) :
    (transitionGroupState data a s).2 =
      (if a = .COMPARE ∧ s.groupModeState = .COMPLETE then syncGroupsToPython s else []) := by
  unfold transitionGroupState
  cases hs : s.groupModeState
  all_goals repeat' split
  all_goals simp_all

lemma syncToPython_countP (s : WidgetState) :
    (syncToPython s).countP isGroupSync = 0 := by
  unfold syncToPython
  split <;> simp [isGroupSync]

lemma syncGroupsToPython_countP (s : WidgetState) :
    (syncGroupsToPython s).countP isGroupSync = 1 := by
  unfold syncGroupsToPython
  simp [isGroupSync]

lemma handleIndividualClick_countP (data : List GeoFeature) (i : Nat) (p : GeoProps)
    (l : String) (s : WidgetState) :
    ((handleIndividualClick data i p l s).2).countP isGroupSync = 0 := by
  simp only [handleIndividualClick]
  repeat' split
  all_goals exact syncToPython_countP _

lemma switchSelectionMode_countP (data : List GeoFeature) (m : SelectionMode)
    (s : WidgetState) :
    ((switchSelectionMode data m s).2).countP isGroupSync = 0 := by
  simp only [switchSelectionMode]
  split
  · simp
  · split
    · exact syncToPython_countP _
    · rw [transitionGroupState_sync]
      simp

end ParcelWidget

namespace ParcelWidget

/-- C7: the group-comparison push happens exactly once per COMPARE action
taken in COMPLETE and on no other event (in particular never as a side
effect of adding or removing group features by clicks), and the
individual-mode sync is a no-op while the selection mode is group. -/
theorem C7_theorem (data : List GeoFeature) :
    (∀ s e, ((step data s e).2).countP isGroupSync =
      (if e = Event.compare ∧ s.groupModeState = .COMPLETE then 1 else 0)) ∧
    (∀ s f, s.selectionMode = .group → (mapClick data f s).2 = []) ∧
    (∀ s, s.selectionMode = .group → syncToPython s = []) := by
  refine ⟨?_, ?_, ?_⟩
  · intro s e
    cases e with
    | click f =>
      simp only [step]
      have h0 : ¬ (Event.click f = Event.compare ∧ s.groupModeState = .COMPLETE) := by
        rintro ⟨h, -⟩
        exact Event.noConfusion h
      rw [if_neg h0]
      simp only [mapClick]
      split
      · simp
      · split
        · exact handleIndividualClick_countP data f.id f.props
            (jsOrS f.props.display_label "N/A") s
        · simp
    | setMode m =>
      simp only [step]
      have h0 : ¬ (Event.setMode m = Event.compare ∧ s.groupModeState = .COMPLETE) := by
        rintro ⟨h, -⟩
        exact Event.noConfusion h
      rw [if_neg h0]
      exact switchSelectionMode_countP data m s
    | confirm =>
      simp only [step]
      have h0 : ¬ (Event.confirm = Event.compare ∧ s.groupModeState = .COMPLETE) := by
        rintro ⟨h, -⟩
        exact Event.noConfusion h
      rw [if_neg h0, transitionGroupState_sync]
      simp
    | reset =>
      simp only [step]
      have h0 : ¬ (Event.reset = Event.compare ∧ s.groupModeState = .COMPLETE) := by
        rintro ⟨h, -⟩
        exact Event.noConfusion h
      rw [if_neg h0, transitionGroupState_sync]
      simp
    | compare =>
      simp only [step]
      rw [transitionGroupState_sync]
      by_cases hs : s.groupModeState = .COMPLETE
      · simp [hs, syncGroupsToPython_countP]
      · simp [hs]
  · intro s f hm
    simp only [mapClick]
    split
    · rfl
    · split
      · rename_i hmode
        rw [hm] at hmode
        exact absurd hmode (by simp)
      · rfl
  · intro s hm
    unfold syncToPython
    rw [hm]
    simp

/-- Witness for C7: at the reachable COMPLETE state, COMPARE pushes
exactly one group sync; a group-mode click pushes nothing; the individual
sync is empty in group mode. -/
theorem C7_witness :
    demoCompleteState.groupModeState = .COMPLETE ∧
    ((step demoData demoCompleteState Event.compare).2).countP isGroupSync = 1 ∧
    demoG1State.selectionMode = .group ∧
    (mapClick demoData demoD demoG1State).2 = [] ∧
    syncToPython demoG1State = [] := by
  refine ⟨by decide, ?_, by decide,
    (C7_theorem demoData).2.1 demoG1State demoD (by decide),
    (C7_theorem demoData).2.2 demoG1State (by decide)⟩
  rw [(C7_theorem demoData).1 demoCompleteState Event.compare]
  rw [if_pos ⟨rfl, by decide⟩]

/-- C1 as stated is false on the code: in the reachable COMPLETE state the
click handler still routes the click to the Group2 working array, so a map
click on a fresh feature changes Group2 (and the membership map). -/
theorem C1_counterexample :
    demoCompleteState.groupModeState = .COMPLETE ∧
    demoCompleteState.selectionMode = .group ∧
    ((mapClick demoData demoD demoCompleteState).1).group2Features
      ≠ demoCompleteState.group2Features := by
  refine ⟨by decide, by decide, by decide⟩

/-- C1 (amended): while COMPLETE in group mode, a map click leaves Group1,
the individual selection, both confirmed snapshots and the state-machine
state unchanged and pushes no sync, but it is still routed to grouping:
when overlay validation passes, the feature is not in the confirmed
Group1, and not already in Group2, it is appended to the Group2 working
array. -/
theorem C1_theorem (data : List GeoFeature) (f : GeoFeature) (s : WidgetState)
    (hst : s.groupModeState = .COMPLETE) (hm : s.selectionMode = .group) :
    ((mapClick data f s).1).group1Features = s.group1Features ∧
    ((mapClick data f s).1).selectedFeatures = s.selectedFeatures ∧
    ((mapClick data f s).1).confirmedGroup1 = s.confirmedGroup1 ∧
    ((mapClick data f s).1).confirmedGroup2 = s.confirmedGroup2 ∧
    ((mapClick data f s).1).groupModeState = .COMPLETE ∧
    (mapClick data f s).2 = [] ∧
    (validateOverlayType f.props s = true →
      (match s.confirmedGroup1 with
        | some g => g.features.any (fun x => x.id == f.props.feature_id)
        | none => false) = false →
      s.group2Features.findIdx? (fun x => x.id == f.props.feature_id) = none →
      ((mapClick data f s).1).group2Features
        = s.group2Features ++ [buildFeatureObject f.props (jsOrS f.props.display_label "N/A")]) := by
  obtain ⟨-, hgs, hc1, hc2⟩ := mapClick_frame data f s
  refine ⟨?_, ?_, hc1, hc2, hgs.trans hst, ?_, ?_⟩
  · simp only [mapClick]
    split
    · rfl
    · split
      · rename_i hmode
        rw [hm] at hmode
        exact absurd hmode (by simp)
      · obtain ⟨-, -, -, -, -⟩ := handleGroupClick_frame f.id f.props
          (jsOrS f.props.display_label "N/A") s
        simp only [handleGroupClick, hst]
        repeat' split
        all_goals simp_all
  · simp only [mapClick]
    split
    · rfl
    · split
      · rename_i hmode
        rw [hm] at hmode
        exact absurd hmode (by simp)
      · obtain ⟨-, -, h3, -, -⟩ := handleGroupClick_frame f.id f.props
          (jsOrS f.props.display_label "N/A") s
        exact h3
  · simp only [mapClick]
    split
    · rfl
    · split
      · rename_i hmode
        rw [hm] at hmode
        exact absurd hmode (by simp)
      · rfl
  · intro hval hnc hni
    simp only [mapClick, hval]
    simp only [Bool.true_eq_false, if_false]
    rw [if_neg (by rw [hm]; simp)]
    simp only [handleGroupClick, hst]
    repeat' split
    all_goals first
      | (simp_all; done)
      | (exfalso
         rename_i hidx heqx hdec
         rw [if_neg hdec, hni] at heqx
         exact Option.noConfusion heqx)

end ParcelWidget

namespace ParcelWidget

/-- Witness for the amended C1 at the reachable COMPLETE state: the
confirmed snapshots survive a post-COMPLETE click and the fresh feature
is appended to the Group2 working array. -/
theorem C1_witness :
    demoCompleteState.groupModeState = .COMPLETE ∧
    demoCompleteState.selectionMode = .group ∧
    ((mapClick demoData demoD demoCompleteState).1).confirmedGroup2
      = demoCompleteState.confirmedGroup2 ∧
    ((mapClick demoData demoD demoCompleteState).1).group2Features
      = demoCompleteState.group2Features
        ++ [buildFeatureObject demoD.props (jsOrS demoD.props.display_label "N/A")] := by
  have h := C1_theorem demoData demoD demoCompleteState (by decide) (by decide)
  exact ⟨by decide, by decide, h.2.2.2.1,
    h.2.2.2.2.2.2 (by decide) (by decide) (by decide)⟩

lemma handleIndividualClick_len (data : List GeoFeature) (i : Nat) (p : GeoProps)
    (l : String) (s : WidgetState) (h : s.selectedFeatures.length ≤ 2) :
    ((handleIndividualClick data i p l s).1).selectedFeatures.length ≤ 2 := by
  simp only [handleIndividualClick]
  repeat' split
  all_goals simp_all [List.length_eraseIdx, MAX_SELECTIONS]
  all_goals (try split_ifs)
  all_goals omega

lemma step_selLen (data : List GeoFeature) (s : WidgetState) (e : Event)
    (h : s.selectedFeatures.length ≤ 2) :
    ((step data s e).1).selectedFeatures.length ≤ 2 := by
  cases e with
  | click f =>
    simp only [step, mapClick]
    split
    · exact h
    · split
      · exact handleIndividualClick_len data f.id f.props
          (jsOrS f.props.display_label "N/A") s h
      · obtain ⟨-, -, h3, -, -⟩ := handleGroupClick_frame f.id f.props
          (jsOrS f.props.display_label "N/A") s
        simpa [h3] using h
  | setMode m =>
    simp only [step, switchSelectionMode]
    split
    · exact h
    · split
      · simp
      · rw [transitionGroupState_start]
        split <;> simp
  | confirm =>
    simp only [step]
    rw [(transitionGroupState_frame data .CONFIRM s).1]
    exact h
  | reset =>
    simp only [step]
    rw [(transitionGroupState_frame data .RESET s).1]
    exact h
  | compare =>
    simp only [step]
    rw [(transitionGroupState_frame data .COMPARE s).1]
    exact h

/-- C3: along any event sequence the individual selection set never
exceeds 2 entries, and a click on a 3rd distinct feature (passing overlay
validation) evicts exactly the oldest entry and appends the new entry at
the most-recent position. -/
theorem C3_theorem (data : List GeoFeature) :
    (∀ s es, s.selectedFeatures.length ≤ 2 →
      ((run data s es).1).selectedFeatures.length ≤ 2) ∧
    (∀ s f a b, s.selectionMode = .individual → s.selectedFeatures = [a, b] →
      f.props.feature_id ≠ a.id → f.props.feature_id ≠ b.id →
      validateOverlayType f.props s = true →
      ((mapClick data f s).1).selectedFeatures
        = [b, buildFeatureObject f.props (jsOrS f.props.display_label "N/A")]) := by
  constructor
  · intro s es
    induction es generalizing s with
    | nil => intro h; exact h
    | cons e t ih =>
      intro h
      simp only [run]
      exact ih _ (step_selLen data s e h)
  · intro s f a b hm hsel hna hnb hval
    have ha : (a.id == f.props.feature_id) = false :=
      beq_eq_false_iff_ne.mpr (fun hc => hna hc.symm)
    have hb : (b.id == f.props.feature_id) = false :=
      beq_eq_false_iff_ne.mpr (fun hc => hnb hc.symm)
    simp only [mapClick, hval, Bool.true_eq_false, if_false]
    rw [if_pos hm]
    simp only [handleIndividualClick, hsel]
    simp [List.findIdx?_cons, ha, hb, MAX_SELECTIONS]

/-- Witness for C3: running three clicks from the empty state keeps the
set at 2, and the 3rd distinct click on a 2-element set evicts the oldest
entry. -/
theorem C3_witness :
    initialState.selectedFeatures.length ≤ 2 ∧
    ((run demoData initialState
      [Event.click demoA, Event.click demoB, Event.click demoC]).1).selectedFeatures.length
        ≤ 2 ∧
    demoInd2State.selectionMode = .individual ∧
    demoInd2State.selectedFeatures
      = [buildFeatureObject (demoProps "A" "parcels" 1000 100) "A",
         buildFeatureObject (demoProps "B" "parcels" 2000 300) "B"] ∧
    ((mapClick demoData demoC demoInd2State).1).selectedFeatures
      = [buildFeatureObject (demoProps "B" "parcels" 2000 300) "B",
         buildFeatureObject (demoProps "C" "parcels" 500 50) "C"] := by
  refine ⟨by decide, (C3_theorem demoData).1 initialState _ (by decide), by decide, by decide, ?_⟩
  have h := (C3_theorem demoData).2 demoInd2State demoC
    (buildFeatureObject (demoProps "A" "parcels" 1000 100) "A")
    (buildFeatureObject (demoProps "B" "parcels" 2000 300) "B")
    (by decide) (by decide) (by decide) (by decide) (by decide)
  rw [h]
  decide

end ParcelWidget

namespace ParcelWidget

lemma confirmInv_of_none (s : WidgetState) (h1 : s.confirmedGroup1 = none)
    (h2 : s.confirmedGroup2 = none) : ConfirmInv s :=
  ⟨fun _ => ⟨h1, h2⟩, fun _ => h2⟩

lemma transitionGroupState_confirm (data : List GeoFeature) (s : WidgetState) :
    (transitionGroupState data .CONFIRM s).1 =
      (if s.groupModeState = .SELECTING_G1 ∧ 0 < s.group1Features.length then
        { s with confirmedGroup1 := some { features := s.group1Features }
                 groupModeState := .SELECTING_G2 }
      else if s.groupModeState = .SELECTING_G2 ∧ 0 < s.group2Features.length then
        { s with confirmedGroup2 := some { features := s.group2Features }
                 groupModeState := .COMPLETE }
      else s) := by
  unfold transitionGroupState
  cases hs : s.groupModeState
  all_goals repeat' split
  all_goals simp_all

lemma transitionGroupState_reset (data : List GeoFeature) (s : WidgetState) :
    (transitionGroupState data .RESET s).1 =
      (if s.groupModeState = .IDLE then s else resetGroupMode data s) := by
  unfold transitionGroupState
  cases hs : s.groupModeState
  all_goals repeat' split
  all_goals simp_all

lemma transitionGroupState_compare (data : List GeoFeature) (s : WidgetState) :
    (transitionGroupState data .COMPARE s).1 = s := by
  unfold transitionGroupState
  cases hs : s.groupModeState
  all_goals repeat' split
  all_goals simp_all

lemma confirmInv_step (data : List GeoFeature) (s : WidgetState) (e : Event)
    (h : ConfirmInv s) : ConfirmInv ((step data s e).1) := by
  cases e with
  | click f =>
    obtain ⟨-, h2, h3, h4⟩ := mapClick_frame data f s
    simp only [step]
    constructor
    · intro hst
      rw [h3, h4]
      exact h.1 (by rwa [h2] at hst)
    · intro hst
      rw [h4]
      exact h.2 (by rwa [h2] at hst)
  | setMode m =>
    simp only [step, switchSelectionMode]
    split
    · exact h
    · split
      · exact confirmInv_of_none _ (by simp) (by simp)
      · rw [transitionGroupState_start]
        split
        · exact confirmInv_of_none _ (by simp) (by simp)
        · exact confirmInv_of_none _ (by simp) (by simp)
  | confirm =>
    simp only [step]
    rw [transitionGroupState_confirm]
    split_ifs with h1 h2
    · have hc := h.1 (Or.inr h1.1)
      constructor
      · intro hx
        exact absurd hx (by simp)
      · intro _
        simpa using hc.2
    · constructor
      · intro hx
        exact absurd hx (by simp)
      · intro hx
        exact absurd hx (by simp)
    · exact h
  | reset =>
    simp only [step]
    rw [transitionGroupState_reset]
    split_ifs
    · exact h
    · exact confirmInv_of_none _ (by simp) (by simp)
  | compare =>
    simp only [step]
    rw [transitionGroupState_compare]
    exact h

lemma step_keeps_conf1 (data : List GeoFeature) (s : WidgetState) (e : Event)
    (g : ConfirmedGroup) (h : ConfirmInv s) (hc : s.confirmedGroup1 = some g) :
    ((step data s e).1).confirmedGroup1 = some g ∨
    ((step data s e).1).confirmedGroup1 = none := by
  cases e with
  | click f =>
    obtain ⟨-, -, h3, -⟩ := mapClick_frame data f s
    left
    simp only [step]
    exact h3.trans hc
  | setMode m =>
    simp only [step, switchSelectionMode]
    split
    · left; exact hc
    · split
      · right; simp
      · rw [transitionGroupState_start]
        split
        · right; simp
        · right; simp
  | confirm =>
    simp only [step]
    rw [transitionGroupState_confirm]
    split_ifs with h1 h2
    · exfalso
      have hn := (h.1 (Or.inr h1.1)).1
      rw [hc] at hn
      exact Option.noConfusion hn
    · left
      simpa using hc
    · left; exact hc
  | reset =>
    simp only [step]
    rw [transitionGroupState_reset]
    split_ifs
    · left; exact hc
    · right; simp
  | compare =>
    simp only [step]
    rw [transitionGroupState_compare]
    left; exact hc

lemma step_keeps_conf2 (data : List GeoFeature) (s : WidgetState) (e : Event)
    (g : ConfirmedGroup) (h : ConfirmInv s) (hc : s.confirmedGroup2 = some g) :
    ((step data s e).1).confirmedGroup2 = some g ∨
    ((step data s e).1).confirmedGroup2 = none := by
  cases e with
  | click f =>
    obtain ⟨-, -, -, h4⟩ := mapClick_frame data f s
    left
    simp only [step]
    exact h4.trans hc
  | setMode m =>
    simp only [step, switchSelectionMode]
    split
    · left; exact hc
    · split
      · right; simp
      · rw [transitionGroupState_start]
        split
        · right; simp
        · right; simp
  | confirm =>
    simp only [step]
    rw [transitionGroupState_confirm]
    split_ifs with h1 h2
    · left
      simpa using hc
    · exfalso
      have hn := h.2 h2.1
      rw [hc] at hn
      exact Option.noConfusion hn
    · left; exact hc
  | reset =>
    simp only [step]
    rw [transitionGroupState_reset]
    split_ifs
    · left; exact hc
    · right; simp
  | compare =>
    simp only [step]
    rw [transitionGroupState_compare]
    left; exact hc

/-- C2: a CONFIRM taken in SELECTING_G1 with Group1 non-empty snapshots a
copy of Group1's current features into ConfirmedGroup1, whose associated
aggregate is the one freshly computed over exactly those features (and
identically for SELECTING_G2 / ConfirmedGroup2); moreover along any event
an existing snapshot is only ever kept identical or destroyed by a reset,
never altered, so its aggregate is never mutated. -/
theorem C2_theorem (data : List GeoFeature) :
    (∀ s, s.groupModeState = .SELECTING_G1 → s.group1Features ≠ [] →
      ((transitionGroupState data .CONFIRM s).1).confirmedGroup1
        = some { features := s.group1Features } ∧
      ((transitionGroupState data .CONFIRM s).1).groupModeState = .SELECTING_G2 ∧
      (((transitionGroupState data .CONFIRM s).1).confirmedGroup1.map
        fun g => calculateGroupAggregate g.features)
        = some (calculateGroupAggregate s.group1Features)) ∧
    (∀ s, s.groupModeState = .SELECTING_G2 → s.group2Features ≠ [] →
      ((transitionGroupState data .CONFIRM s).1).confirmedGroup2
        = some { features := s.group2Features } ∧
      ((transitionGroupState data .CONFIRM s).1).groupModeState = .COMPLETE ∧
      (((transitionGroupState data .CONFIRM s).1).confirmedGroup2.map
        fun g => calculateGroupAggregate g.features)
        = some (calculateGroupAggregate s.group2Features)) ∧
    ConfirmInv initialState ∧
    (∀ s e, ConfirmInv s → ConfirmInv ((step data s e).1)) ∧
    (∀ s e g, ConfirmInv s → s.confirmedGroup1 = some g →
      ((step data s e).1).confirmedGroup1 = some g ∨
      ((step data s e).1).confirmedGroup1 = none) ∧
    (∀ s e g, ConfirmInv s → s.confirmedGroup2 = some g →
      ((step data s e).1).confirmedGroup2 = some g ∨
      ((step data s e).1).confirmedGroup2 = none) := by
  refine ⟨?_, ?_, ?_, ?_, ?_, ?_⟩
  · intro s h1 hne
    have hlen : 0 < s.group1Features.length := List.length_pos.mpr hne
    rw [transitionGroupState_confirm, if_pos ⟨h1, hlen⟩]
    exact ⟨by simp, by simp, by simp⟩
  · intro s h2 hne
    have hlen : 0 < s.group2Features.length := List.length_pos.mpr hne
    have hnot : ¬ (s.groupModeState = .SELECTING_G1 ∧ 0 < s.group1Features.length) := by
      rintro ⟨hx, -⟩
      rw [h2] at hx
      exact GroupModeState.noConfusion hx
    rw [transitionGroupState_confirm, if_neg hnot, if_pos ⟨h2, hlen⟩]
    exact ⟨by simp, by simp, by simp⟩
  · exact confirmInv_of_none _ rfl rfl
  · exact fun s e h => confirmInv_step data s e h
  · exact fun s e g h hc => step_keeps_conf1 data s e g h hc
  · exact fun s e g h hc => step_keeps_conf2 data s e g h hc

/-- Witness for C2: confirming the reachable Group1 = [A, B] snapshots
exactly those two features, moves to SELECTING_G2, and the snapshot's
aggregate is the one computed over them. -/
theorem C2_witness :
    demoG1State.groupModeState = .SELECTING_G1 ∧
    demoG1State.group1Features ≠ [] ∧
    ((transitionGroupState demoData .CONFIRM demoG1State).1).confirmedGroup1
      = some { features := demoG1State.group1Features } ∧
    ((transitionGroupState demoData .CONFIRM demoG1State).1).groupModeState
      = .SELECTING_G2 := by
  have h := (C2_theorem demoData).1 demoG1State (by decide) (by decide)
  exact ⟨by decide, by decide, h.1, h.2.1⟩

end ParcelWidget

namespace ParcelWidget

/-- C8: switching from individual mode (with a non-empty individual
selection) to group mode empties the individual set, unmarks every
previously selected feature's visual state, and leaves the group state
machine in SELECTING_G1 with both working groups empty and both confirmed
groups null. -/
theorem C8_theorem (data : List GeoFeature) (s : WidgetState)
    (hm : s.selectionMode = .individual) (hne : s.selectedFeatures ≠ []) :
    ((switchSelectionMode data .group s).1).selectedFeatures = [] ∧
    ((switchSelectionMode data .group s).1).groupModeState = .SELECTING_G1 ∧
    ((switchSelectionMode data .group s).1).group1Features = [] ∧
    ((switchSelectionMode data .group s).1).group2Features = [] ∧
    ((switchSelectionMode data .group s).1).confirmedGroup1 = none ∧
    ((switchSelectionMode data .group s).1).confirmedGroup2 = none ∧
    (∀ fobj ∈ s.selectedFeatures, ∀ gf,
      data.find? (fun g => g.props.feature_id == fobj.id) = some gf →
      getVisual (((switchSelectionMode data .group s).1).visual) gf.id = defaultVisual) := by
  have hmm : ¬ (SelectionMode.group = s.selectionMode) := by
    rw [hm]
    exact fun hx => SelectionMode.noConfusion hx
  simp only [switchSelectionMode, if_neg hmm]
  rw [if_neg (fun hx => SelectionMode.noConfusion hx)]
  rw [transitionGroupState_start]
  have hstate :
      ({ clearAllSelections data s with selectionMode := SelectionMode.group }
        : WidgetState).groupModeState = .IDLE := by
    simp [clearAllSelections_state, hm]
  rw [if_pos hstate]
  refine ⟨by simp, rfl, by simp, by simp, by simp, by simp, ?_⟩
  intro fobj hmem gf hfind
  have hv : getVisual ((clearAllSelections data s).visual) gf.id = defaultVisual := by
    rw [clearAllSelections_visual]
    exact clearFold_default data _ _ _
      (clearFold_member data s.selectedFeatures s.visual fobj hmem gf hfind)
  exact hv

/-- Witness for C8: switching to group mode from the reachable state with
A selected clears the set and unmarks feature A. -/
theorem C8_witness :
    demoIndState.selectionMode = .individual ∧
    demoIndState.selectedFeatures ≠ [] ∧
    ((switchSelectionMode demoData .group demoIndState).1).selectedFeatures = [] ∧
    ((switchSelectionMode demoData .group demoIndState).1).groupModeState = .SELECTING_G1 ∧
    getVisual (((switchSelectionMode demoData .group demoIndState).1).visual) demoA.id
      = defaultVisual := by
  have h := C8_theorem demoData demoIndState (by decide) (by decide)
  refine ⟨by decide, by decide, h.1, h.2.1, ?_⟩
  exact h.2.2.2.2.2.2 (buildFeatureObject (demoProps "A" "parcels" 1000 100) "A")
    (by decide) demoA (by decide)

end ParcelWidget
